import Mathlib

/-!
Verification of the WMACS guardian / enhanced-deployment orchestrator.

The definitions below are a shallow embedding of the two JavaScript
modules `wmacs-guardian.js` (deadlock detection, recovery dispatch) and
`apex-enhanced-deployment.js` (repository synchronization, health
validation, rollback).  Timestamps are integers (milliseconds, as
produced by `Date.now()`); the mutable `Map` fields of the guardian are
modelled as functions from string keys to optional values; an external
command or a guarded action is represented by its outcome, an
`Except JsError` value.
-/

/-- A JavaScript `Error`, reduced to the only field the code inspects:
its `message` string. -/
structure JsError where
  message : String
deriving DecidableEq, Repr

/-- Predicate `matchesAt needle hay` is true when `needle` occurs at the very
start of `hay` (character-by-character comparison). -/
def matchesAt : List Char → List Char → Bool
  | [], _ => true
  | _ :: _, [] => false
  | n :: ns, h :: hs => n == h && matchesAt ns hs

/-- Predicate `findSub needle hay` is true when `needle` occurs somewhere inside
`hay`. -/
def findSub (needle : List Char) : List Char → Bool
  | [] => matchesAt needle []
  | h :: hs => matchesAt needle (h :: hs) || findSub needle hs

/-- JavaScript `haystack.includes(needle)`: substring containment. -/
def strContains (haystack needle : String) : Bool :=
  findSub needle.toList haystack.toList

/-- The guardian configuration object built in the `WMACSGuardian`
constructor (defaults, before any override). -/
structure GuardianConfig where
  maxRetries : Nat
  timeoutMs : Int
  healthCheckInterval : Int
  forceRecoveryAfter : Int
  containers : List String
  ports : List Nat
deriving Repr

/-- The default configuration of `WMACSGuardian`:
`{maxRetries: 3, timeoutMs: 30000, healthCheckInterval: 5000,
forceRecoveryAfter: 120000, containers: ['134','135'], ports: [3001, 8000]}`. -/
def defaultConfig : GuardianConfig :=
  { maxRetries := 3
    timeoutMs := 30000
    healthCheckInterval := 5000
    forceRecoveryAfter := 120000
    containers := ["134", "135"]
    ports := [3001, 8000] }

/-- One entry of the guardian's `attempts` map:
`{ count, firstAttempt }`. -/
structure AttemptRecord where
  count : Nat
  firstAttempt : Int
deriving DecidableEq, Repr

/-- The guardian's mutable state: the `attempts` map and the
`lastSuccess` map, both keyed by the string `` `${operation}-${target}` ``. -/
structure GuardianState where
  attempts : String → Option AttemptRecord
  lastSuccess : String → Option Int

/-- The state of a fresh `WMACSGuardian` instance: both maps empty. -/
def initialState : GuardianState :=
  { attempts := fun _ => none, lastSuccess := fun _ => none }

/-- The map key `` `${operation}-${target}` ``. -/
def mkKey (operation target : String) : String :=
  operation ++ "-" ++ target

/-- The object returned by `detectDeadlock`. -/
structure DeadlockStatus where
  isDeadlock : Bool
  needsForceRecovery : Bool
  attemptCount : Nat
  timeSinceFirst : Int
deriving DecidableEq, Repr

/-- Method `WMACSGuardian.detectDeadlock(operation, target)` evaluated at time
`now`: lazily creates the attempt record, increments its count, and
reports `isDeadlock` (`count >= 3 && timeSinceFirst > 60000`) and
`needsForceRecovery` (`now - (lastSuccess.get(key) || 0) >
config.forceRecoveryAfter`).  Returns the status together with the
updated state. -/
def detectDeadlock (cfg : GuardianConfig) (st : GuardianState)
    (operation target : String) (now : Int) : DeadlockStatus × GuardianState :=
  let key := mkKey operation target
  let prior : AttemptRecord := (st.attempts key).getD { count := 0, firstAttempt := now }
  let attempt : AttemptRecord := { prior with count := prior.count + 1 }
  let st' : GuardianState :=
    { st with attempts := fun k => if k = key then some attempt else st.attempts k }
  let timeSinceFirst := now - attempt.firstAttempt
  let lastSuccessTime := (st.lastSuccess key).getD 0
  let timeSinceLastSuccess := now - lastSuccessTime
  ({ isDeadlock := decide (attempt.count ≥ 3) && decide (timeSinceFirst > 60000)
     needsForceRecovery := decide (timeSinceLastSuccess > cfg.forceRecoveryAfter)
     attemptCount := attempt.count
     timeSinceFirst := timeSinceFirst }, st')

/-- The recovery actions a guarded call can trigger, in the order they
are performed.  `force` is `forceRecovery` (the `pct stop/start`
container cycle), the others are the error-signature recoveries. -/
inductive RecoveryAction where
  | force (target : String)
  | portConflict (target : String)
  | connectionIssue (target : String)
  | missingFiles (target : String)
deriving DecidableEq, Repr

/-- Result of one `executeWithGuardian` call: the value returned or the
error rethrown, the guardian state afterwards, and the recovery actions
performed during the call (in order). -/
structure GuardianCall (α : Type) where
  result : Except JsError α
  state : GuardianState
  recoveries : List RecoveryAction

/-- Method `WMACSGuardian.executeWithGuardian(operation, target, actionFn)`.

`now` is `Date.now()` at entry (used by `detectDeadlock`);
`actionOutcome` is the outcome of `Promise.race([actionFn(), timeout])`
— the value produced or the error thrown (a timeout surfaces here as an
error whose message is the timeout message); `connectionCheckOk` says
whether the ping + ssh probes inside `recoverConnectionIssue` succeed
(when they fail, that recovery escalates to `forceRecovery`);
`successNow` is `Date.now()` at the success-recording statement.

On deadlock with `needsForceRecovery`, `forceRecovery` runs before the
action.  On success the attempt record is deleted and `lastSuccess` is
stamped.  On failure the error-signature dispatch fires
(`'EADDRINUSE'` / `'Connection refused'` / `'No such file'`) and the
original error is rethrown; the recovery helpers catch their own errors
and never throw. -/
def executeWithGuardian {α : Type} (cfg : GuardianConfig) (st : GuardianState)
    (operation target : String) (now : Int)
    (actionOutcome : Except JsError α) (connectionCheckOk : Bool)
    (successNow : Int) : GuardianCall α :=
  let key := mkKey operation target
  let (status, st1) := detectDeadlock cfg st operation target now
  let preRecoveries : List RecoveryAction :=
    if status.isDeadlock && status.needsForceRecovery then
      [RecoveryAction.force target]
    else []
  match actionOutcome with
  | .ok v =>
      let st2 : GuardianState :=
        { attempts := fun k => if k = key then none else st1.attempts k
          lastSuccess := fun k => if k = key then some successNow else st1.lastSuccess k }
      { result := .ok v, state := st2, recoveries := preRecoveries }
  | .error e =>
      let errRecoveries : List RecoveryAction :=
        if strContains e.message "EADDRINUSE" then
          [RecoveryAction.portConflict target]
        else if strContains e.message "Connection refused" then
          if connectionCheckOk then
            [RecoveryAction.connectionIssue target]
          else
            [RecoveryAction.connectionIssue target, RecoveryAction.force target]
        else if strContains e.message "No such file" then
          [RecoveryAction.missingFiles target]
        else []
      { result := .error e, state := st1, recoveries := preRecoveries ++ errRecoveries }

/-- One guarded invocation, as seen from the guardian state: its key
components, the clock at entry, the outcome of the raced action, the
outcome of the connectivity probes should connection recovery run, and
the clock at the success-recording statement. -/
structure Invocation where
  operation : String
  target : String
  now : Int
  outcome : Except JsError Unit
  connectionCheckOk : Bool
  successNow : Int

/-- Fold a list of guarded invocations over the guardian state. -/
def runGuardian (cfg : GuardianConfig) (invs : List Invocation)
    (st : GuardianState) : GuardianState :=
  invs.foldl
    (fun s i =>
      (executeWithGuardian cfg s i.operation i.target i.now i.outcome
        i.connectionCheckOk i.successNow).state)
    st

/-- Method `WMACSGuardian.timeout(ms)`: a promise that only ever rejects, with
the message `` `Operation timed out after ${ms}ms` ``.  Awaiting it
always throws. -/
def guardianTimeout (ms : Int) : Except JsError Unit :=
  .error { message := "Operation timed out after " ++ toString ms ++ "ms" }

/-- The async arrow function passed to `executeWithGuardian` by
`WMACSGuardian.guardedApplicationStart`: stop existing processes, then
`await this.timeout(2000)` (intended as a sleep), start the
application, `await this.timeout(5000)`, then curl the health endpoint
and throw if it reports `HEALTH_CHECK_FAILED`.  The three
`executeCommand` calls are represented by their outcomes. -/
def guardedStartAction (pkillOutcome startOutcome healthOutcome : Except JsError String) :
    Except JsError Bool := do
  let _ ← pkillOutcome
  let _ ← guardianTimeout 2000
  let _ ← startOutcome
  let _ ← guardianTimeout 5000
  let healthCheck ← healthOutcome
  if strContains healthCheck "HEALTH_CHECK_FAILED" then
    throw { message := "Application failed to start properly" }
  else
    pure true

/-- Method `WMACSGuardian.guardedApplicationStart(container, port)`:
`executeWithGuardian('app-start', container, action)` with the action
above.  The action settles (always by rejecting, see
`guardedStartAction`) well inside the 30s race timeout, so the raced
outcome is the action's own outcome. -/
def guardedApplicationStart (cfg : GuardianConfig) (st : GuardianState)
    (container : String) (now : Int)
    (pkillOutcome startOutcome healthOutcome : Except JsError String)
    (connectionCheckOk : Bool) (successNow : Int) : GuardianCall Bool :=
  executeWithGuardian cfg st "app-start" container now
    (guardedStartAction pkillOutcome startOutcome healthOutcome)
    connectionCheckOk successNow

/-!
## Enhanced deployment (`apex-enhanced-deployment.js`)
-/

/-- A remote command issued over ssh by the deployment tool, abstracted
to its effect class. -/
inductive RemoteCmd where
  /-- Command `git rev-parse HEAD` on the container. -/
  | readHead
  /-- Command `git fetch origin --force` on the container. -/
  | fetch
  /-- Command `git reset --hard origin/<branch>` on the container. -/
  | resetHard
  /-- Command `md5sum <file>` on the container (critical-file validation). -/
  | readFileHash (file : String)
deriving DecidableEq, Repr

/-- Whether a remote command mutates the remote working copy or its
repository state (reads are `readHead` and `readFileHash`). -/
def RemoteCmd.isMutation : RemoteCmd → Bool
  | .readHead => false
  | .readFileHash _ => false
  | .fetch => true
  | .resetHard => true

/-- The remote working copy, reduced to what the synchronization logic
observes: its current `HEAD` commit, and the commit the remote-tracking
ref `origin/<branch>` holds once `git fetch origin --force` has run (so
`git reset --hard origin/<branch>` sets `HEAD` to `originHead`). -/
structure RemoteRepo where
  head : String
  originHead : String
deriving DecidableEq, Repr

/-- The critical files checked by
`WMACSEnhancedDeployment.validateCriticalFiles`. -/
def criticalFiles : List String :=
  ["src/app/layout.tsx", "src/app/admin/page.tsx", "package.json"]

/-- The remote commands issued by `validateCriticalFiles`: one `md5sum`
per critical file whose local hash could be computed (`localHash` is
`some` when the local `fs.readFileSync` succeeds; when it throws, the
per-file `try` block is exited before the remote command).  Hash
mismatches and command failures are caught and logged as warnings, so
this helper never throws. -/
def validateCriticalFilesCmds (localHash : String → Option String) : List RemoteCmd :=
  criticalFiles.filterMap fun f => (localHash f).map fun _ => RemoteCmd.readFileHash f

/-- The outcome of `repositorySynchronization`: the error thrown or
success, the remote repository afterwards, and the remote commands
issued, in order. -/
structure SyncOutcome where
  result : Except JsError Unit
  repo : RemoteRepo
  commands : List RemoteCmd
deriving Repr

/-- Method `WMACSEnhancedDeployment.repositorySynchronization(envConfig,
forceSync)` with local commit `localCommit`: read the container HEAD;
if it differs from the local commit or `forceSync` is set, fetch with
force, hard-reset to the upstream branch ref, re-read HEAD and throw a
sync error unless it now equals the local commit; otherwise
short-circuit.  Both paths end in `validateCriticalFiles`. -/
def repositorySynchronization (localCommit : String) (repo : RemoteRepo)
    (forceSync : Bool) (localHash : String → Option String) : SyncOutcome :=
  let needsSync := repo.head != localCommit
  if needsSync || forceSync then
    let repoAfterReset : RemoteRepo := { repo with head := repo.originHead }
    if repoAfterReset.head != localCommit then
      { result := .error { message :=
          "Repository synchronization failed: " ++ repoAfterReset.head
            ++ " !== " ++ localCommit }
        repo := repoAfterReset
        commands := [.readHead, .fetch, .resetHard, .readHead] }
    else
      { result := .ok ()
        repo := repoAfterReset
        commands := [.readHead, .fetch, .resetHard, .readHead]
            ++ validateCriticalFilesCmds localHash }
  else
    { result := .ok ()
      repo := repo
      commands := RemoteCmd.readHead :: validateCriticalFilesCmds localHash }

/-- One entry of the hardcoded endpoint list in
`postDeploymentValidation`. -/
structure Endpoint where
  name : String
  url : String
  expectedStatus : String
deriving DecidableEq, Repr

/-- The endpoint list hardcoded in `postDeploymentValidation`: three
endpoints, each expecting status `200`. -/
def endpoints : List Endpoint :=
  [ { name := "Health Check", url := "/admin", expectedStatus := "200" }
  , { name := "API Status", url := "/api/admin/users", expectedStatus := "200" }
  , { name := "Dashboard", url := "/dashboard", expectedStatus := "200" } ]

/-- One element of the `results` array built by
`postDeploymentValidation`. -/
structure EndpointResult where
  name : String
  url : String
  status : String
  healthy : Bool
  error : Option String
deriving DecidableEq, Repr

/-- An ASCII whitespace character, as stripped by
`String.prototype.trim()` on command output. -/
def isWhitespaceChar (c : Char) : Bool :=
  c == ' ' || c == '\t' || c == '\n' || c == '\r'

/-- JavaScript `s.trim()`: strip whitespace from both ends. -/
def jsTrim (s : String) : String :=
  String.mk (((s.toList.dropWhile isWhitespaceChar).reverse.dropWhile
    isWhitespaceChar).reverse)

/-- The per-endpoint body of `postDeploymentValidation`'s loop: curl
the endpoint (`probe` gives the command's stdout, or the error the
command rejected with), trim the captured status code, compare against
the expected status; a probe error is recorded as status `ERROR`,
unhealthy. -/
def endpointResult (probe : String → Except JsError String) (ep : Endpoint) :
    EndpointResult :=
  match probe ep.url with
  | .ok out =>
      let status := jsTrim out
      { name := ep.name, url := ep.url, status := status
        healthy := status == ep.expectedStatus, error := none }
  | .error e =>
      { name := ep.name, url := ep.url, status := "ERROR"
        healthy := false, error := some e.message }

/-- The number of healthy endpoints counted by
`postDeploymentValidation` for the given probe outcomes. -/
def healthyCount (probe : String → Except JsError String) : Nat :=
  (endpoints.map (endpointResult probe)).countP (fun r => r.healthy)

/-- Value `Math.ceil(endpoints.length * 0.75)`: the healthy-endpoint count
required to pass (with the hardcoded three endpoints this is
`ceil(2.25) = 3`). -/
def validationThreshold : Nat := (3 * endpoints.length + 3) / 4

/-- The object returned by `postDeploymentValidation` on success. -/
structure ValidationOutcome where
  success : Bool
  healthyEndpoints : Nat
  totalEndpoints : Nat
  results : List EndpointResult
deriving DecidableEq, Repr

/-- Method `WMACSEnhancedDeployment.postDeploymentValidation(envConfig)`:
probe every endpoint, count the healthy ones, and throw
`Post-deployment validation failed: h/n endpoints healthy` when the
count falls below `Math.ceil(n * 0.75)`; otherwise return the verdict
with the per-endpoint breakdown. -/
def postDeploymentValidation (probe : String → Except JsError String) :
    Except JsError ValidationOutcome :=
  let results := endpoints.map (endpointResult probe)
  let healthy := results.countP (fun r => r.healthy)
  if healthy ≥ validationThreshold then
    .ok { success := true, healthyEndpoints := healthy
          totalEndpoints := endpoints.length, results := results }
  else
    .error { message := "Post-deployment validation failed: " ++ toString healthy
        ++ "/" ++ toString endpoints.length ++ " endpoints healthy" }

/-!
## Deployment orchestrator (`deployToEnvironment` and `attemptRollback`)
-/

/-- A step of a deployment run, as recorded in the order the
orchestrator executes it.  `deploy` stands for one execution of the
`applicationDeployment` phase (also used to restart the application
inside `attemptRollback`); `rollbackReadParent` and `rollbackReset` are
the `git rev-parse HEAD~1` and `git reset --hard <parent>` steps of
`attemptRollback`. -/
inductive Phase where
  | preCheck
  | sync
  | deploy
  | validate
  | rollbackReadParent
  | rollbackReset
deriving DecidableEq, Repr

/-- The externally determined outcomes of the steps a deployment run
can take: the four pipeline phases, and the three steps of
`attemptRollback` (read the parent commit, hard-reset to it, re-run the
deploy phase). -/
structure PhaseOutcomes where
  preCheck : Except JsError Unit
  sync : Except JsError Unit
  deploy : Except JsError Unit
  validate : Except JsError ValidationOutcome
  rollbackReadParent : Except JsError String
  rollbackReset : Except JsError Unit
  rollbackDeploy : Except JsError Unit

/-- The `try` block of `deployToEnvironment`: phases run strictly in
order and the first error aborts the sequence.  Returns the outcome
together with the phases executed. -/
def runPhases (po : PhaseOutcomes) : Except JsError ValidationOutcome × List Phase :=
  match po.preCheck with
  | .error e => (.error e, [.preCheck])
  | .ok _ =>
    match po.sync with
    | .error e => (.error e, [.preCheck, .sync])
    | .ok _ =>
      match po.deploy with
      | .error e => (.error e, [.preCheck, .sync, .deploy])
      | .ok _ =>
        match po.validate with
        | .error e => (.error e, [.preCheck, .sync, .deploy, .validate])
        | .ok v => (.ok v, [.preCheck, .sync, .deploy, .validate])

/-- Method `WMACSEnhancedDeployment.attemptRollback(envConfig)`: read the
remote parent commit, hard-reset the remote working copy to it, and
re-run `applicationDeployment`; if any of those steps throws, rethrow
as `` `Deployment failed and rollback failed: ${rollbackError.message}` ``.
Post-deployment validation is not run here.  Returns the outcome and
the steps executed. -/
def attemptRollback (po : PhaseOutcomes) : Except JsError Unit × List Phase :=
  match po.rollbackReadParent with
  | .error e =>
      (.error { message := "Deployment failed and rollback failed: " ++ e.message },
        [.rollbackReadParent])
  | .ok _ =>
    match po.rollbackReset with
    | .error e =>
        (.error { message := "Deployment failed and rollback failed: " ++ e.message },
          [.rollbackReadParent, .rollbackReset])
    | .ok _ =>
      match po.rollbackDeploy with
      | .error e =>
          (.error { message := "Deployment failed and rollback failed: " ++ e.message },
            [.rollbackReadParent, .rollbackReset, .deploy])
      | .ok _ =>
          (.ok (), [.rollbackReadParent, .rollbackReset, .deploy])

/-- The terminal outcome of one `deployToEnvironment` run together with
the ordered list of steps it executed. -/
structure DeployRun where
  result : Except JsError ValidationOutcome
  phases : List Phase
deriving Repr

/-- Method `WMACSEnhancedDeployment.deployToEnvironment(environment, options)`:
run the four phases; on success return the validation verdict.  On any
phase error, when `autoRollback` is set, await `attemptRollback` — if
the rollback succeeds the original error is rethrown, and if the
rollback throws, its (combined) error replaces the original one. -/
def deployToEnvironment (po : PhaseOutcomes) (autoRollback : Bool) : DeployRun :=
  match runPhases po with
  | (.ok v, ps) => { result := .ok v, phases := ps }
  | (.error e, ps) =>
    if autoRollback then
      match attemptRollback po with
      | (.ok _, rps) => { result := .error e, phases := ps ++ rps }
      | (.error re, rps) => { result := .error re, phases := ps ++ rps }
    else
      { result := .error e, phases := ps }

/-!
## Helper lemmas about the guardian state machine
-/

theorem detectDeadlock_lastSuccess (cfg : GuardianConfig) (st : GuardianState)
    (operation target : String) (now : Int) :
    (detectDeadlock cfg st operation target now).2.lastSuccess = st.lastSuccess := rfl

theorem detectDeadlock_attempts_self (cfg : GuardianConfig) (st : GuardianState)
    (operation target : String) (now : Int) :
    (detectDeadlock cfg st operation target now).2.attempts (mkKey operation target) =
      some { count := ((st.attempts (mkKey operation target)).getD
                { count := 0, firstAttempt := now }).count + 1
             firstAttempt := ((st.attempts (mkKey operation target)).getD
                { count := 0, firstAttempt := now }).firstAttempt } := by
  simp [detectDeadlock]

theorem detectDeadlock_attempts_other (cfg : GuardianConfig) (st : GuardianState)
    (operation target : String) (now : Int) (k : String)
    (hk : k ≠ mkKey operation target) :
    (detectDeadlock cfg st operation target now).2.attempts k = st.attempts k := by
  simp [detectDeadlock, hk]

theorem detectDeadlock_isDeadlock (cfg : GuardianConfig) (st : GuardianState)
    (operation target : String) (now : Int) (c : Nat) (f : Int)
    (h : st.attempts (mkKey operation target) = some { count := c, firstAttempt := f }) :
    (detectDeadlock cfg st operation target now).1.isDeadlock =
      (decide (c + 1 ≥ 3) && decide (now - f > 60000)) := by
  simp [detectDeadlock, h]

theorem detectDeadlock_isDeadlock_fresh (cfg : GuardianConfig) (st : GuardianState)
    (operation target : String) (now : Int)
    (h : st.attempts (mkKey operation target) = none) :
    (detectDeadlock cfg st operation target now).1.isDeadlock = false := by
  simp [detectDeadlock, h]

theorem execOk_attempts_self {α : Type} (cfg : GuardianConfig) (st : GuardianState)
    (operation target : String) (now : Int) (v : α) (cco : Bool) (sn : Int) :
    (executeWithGuardian cfg st operation target now (.ok v) cco sn).state.attempts
      (mkKey operation target) = none := by
  simp [executeWithGuardian]

theorem execOk_lastSuccess_self {α : Type} (cfg : GuardianConfig) (st : GuardianState)
    (operation target : String) (now : Int) (v : α) (cco : Bool) (sn : Int) :
    (executeWithGuardian cfg st operation target now (.ok v) cco sn).state.lastSuccess
      (mkKey operation target) = some sn := by
  simp [executeWithGuardian]

theorem execError_state {α : Type} (cfg : GuardianConfig) (st : GuardianState)
    (operation target : String) (now : Int) (e : JsError) (cco : Bool) (sn : Int) :
    (executeWithGuardian cfg st operation target now (.error e : Except JsError α) cco sn).state =
      (detectDeadlock cfg st operation target now).2 := by
  simp [executeWithGuardian]

theorem exec_attempts_other {α : Type} (cfg : GuardianConfig) (st : GuardianState)
    (operation target : String) (now : Int) (outcome : Except JsError α)
    (cco : Bool) (sn : Int) (k : String) (hk : k ≠ mkKey operation target) :
    (executeWithGuardian cfg st operation target now outcome cco sn).state.attempts k =
      st.attempts k := by
  cases outcome with
  | ok v => simp [executeWithGuardian, detectDeadlock, hk]
  | error e => simp [executeWithGuardian, detectDeadlock, hk]

theorem exec_lastSuccess_of_error {α : Type} (cfg : GuardianConfig) (st : GuardianState)
    (operation target : String) (now : Int) (e : JsError) (cco : Bool) (sn : Int) :
    (executeWithGuardian cfg st operation target now (.error e : Except JsError α) cco sn).state.lastSuccess =
      st.lastSuccess := by
  simp [executeWithGuardian, detectDeadlock]

/-!
## Claim theorems
-/

/-- C3: For every (operation, target) key, after any guarded operation
completes successfully, the key's attempt record is absent from the
`attempts` map and the key's last-success time is set to the current
time (the `Date.now()` read at the success-recording statement). -/
theorem success_resets_attempts_and_stamps_lastSuccess {α : Type}
    (cfg : GuardianConfig) (st : GuardianState) (operation target : String)
    (now : Int) (outcome : Except JsError α) (cco : Bool) (sn : Int) (v : α)
    (h : outcome = .ok v) :
    (executeWithGuardian cfg st operation target now outcome cco sn).state.attempts
        (mkKey operation target) = none
    ∧ (executeWithGuardian cfg st operation target now outcome cco sn).state.lastSuccess
        (mkKey operation target) = some sn := by
  subst h
  exact ⟨execOk_attempts_self cfg st operation target now v cco sn,
    execOk_lastSuccess_self cfg st operation target now v cco sn⟩

/-- Witness for C3 at a concrete successful invocation. -/
theorem success_resets_attempts_and_stamps_lastSuccess_witness :
    (executeWithGuardian defaultConfig initialState "app-start" "134" 1000
        (.ok () : Except JsError Unit) true 1005).state.attempts "app-start-134" = none
    ∧ (executeWithGuardian defaultConfig initialState "app-start" "134" 1000
        (.ok () : Except JsError Unit) true 1005).state.lastSuccess "app-start-134" =
        some 1005 :=
  success_resets_attempts_and_stamps_lastSuccess defaultConfig initialState
    "app-start" "134" 1000 (.ok ()) true 1005 () rfl

/-- The guarded-start action rejects for every outcome of the external
commands: after the process-stop command, `await this.timeout(2000)`
throws (the timeout promise only ever rejects), so the start command
and the health check are never reached. -/
theorem guardedStartAction_always_errors
    (pkillOutcome startOutcome healthOutcome : Except JsError String) :
    guardedStartAction pkillOutcome startOutcome healthOutcome =
      .error (match pkillOutcome with
        | .ok _ => { message := "Operation timed out after 2000ms" }
        | .error e => e) := by
  cases pkillOutcome with
  | ok s => rfl
  | error e => rfl

/-- C9: the guarded application start (`guardian start`) always results
in an error — its action awaits `timeout(2000)` as if it were a sleep,
but the timeout helper's promise only ever rejects — and so the key's
last-success time is never recorded via this path (the `lastSuccess`
map is left untouched). -/
theorem guardedApplicationStart_never_succeeds
    (cfg : GuardianConfig) (st : GuardianState) (container : String) (now : Int)
    (pkillOutcome startOutcome healthOutcome : Except JsError String)
    (cco : Bool) (sn : Int) :
    (∃ e, (guardedApplicationStart cfg st container now pkillOutcome startOutcome
        healthOutcome cco sn).result = .error e)
    ∧ (guardedApplicationStart cfg st container now pkillOutcome startOutcome
        healthOutcome cco sn).state.lastSuccess = st.lastSuccess
    ∧ (∀ s, pkillOutcome = .ok s →
        (guardedApplicationStart cfg st container now pkillOutcome startOutcome
          healthOutcome cco sn).result =
          .error { message := "Operation timed out after 2000ms" }) := by
  unfold guardedApplicationStart
  rw [guardedStartAction_always_errors]
  refine ⟨⟨(match pkillOutcome with
      | .ok _ => { message := "Operation timed out after 2000ms" }
      | .error e => e), ?_⟩, ?_, ?_⟩
  · simp [executeWithGuardian]
  · rw [execError_state]
    exact detectDeadlock_lastSuccess cfg st "app-start" container now
  · intro s hs
    subst hs
    simp [executeWithGuardian]

/-- Witness for C9 at concrete inputs (no hypotheses to discharge; the
inner implication is instantiated at a succeeding stop command). -/
theorem guardedApplicationStart_never_succeeds_witness :
    (∃ e, (guardedApplicationStart defaultConfig initialState "134" 0
        (.ok "stopped") (.ok "started") (.ok "200") true 7).result = .error e)
    ∧ (guardedApplicationStart defaultConfig initialState "134" 0
        (.ok "stopped") (.ok "started") (.ok "200") true 7).state.lastSuccess =
        initialState.lastSuccess
    ∧ (∀ s, (.ok "stopped" : Except JsError String) = .ok s →
        (guardedApplicationStart defaultConfig initialState "134" 0
          (.ok "stopped") (.ok "started") (.ok "200") true 7).result =
          .error { message := "Operation timed out after 2000ms" }) :=
  guardedApplicationStart_never_succeeds defaultConfig initialState "134" 0
    (.ok "stopped") (.ok "started") (.ok "200") true 7

/-- C10: for a key with no recorded success, `detectDeadlock` treats the
last-success time as the epoch `0`, so the force-recovery time gate
(`timeSinceLastSuccess > 120000`) is satisfied whenever the clock reads
more than 120000 ms past the epoch — i.e. on every real invocation —
and hence the first time the deadlock condition holds for a fresh key,
the pre-action force recovery runs immediately. -/
theorem fresh_key_force_gate_always_open
    (cfg : GuardianConfig) (st : GuardianState) (operation target : String)
    (now : Int) (h0 : st.lastSuccess (mkKey operation target) = none)
    (hcfg : cfg.forceRecoveryAfter = 120000) (hnow : 120000 < now) :
    (detectDeadlock cfg st operation target now).1.needsForceRecovery = true
    ∧ (∀ (outcome : Except JsError Unit) (cco : Bool) (sn : Int),
        (detectDeadlock cfg st operation target now).1.isDeadlock = true →
        RecoveryAction.force target ∈
          (executeWithGuardian cfg st operation target now outcome cco sn).recoveries) := by
  have hgate : (detectDeadlock cfg st operation target now).1.needsForceRecovery = true := by
    simp [detectDeadlock, h0, hcfg]
    omega
  refine ⟨hgate, fun outcome cco sn hdl => ?_⟩
  cases outcome with
  | ok v =>
      simp only [executeWithGuardian, hdl, hgate, Bool.and_self, if_true]
      exact List.mem_singleton.mpr rfl
  | error e =>
      simp only [executeWithGuardian, hdl, hgate, Bool.and_self, if_true]
      exact List.mem_append_left _ (List.mem_singleton.mpr rfl)

/-- Witness for C10: a fresh key at clock 200000 ms, with three prior
failures making the deadlock condition hold. -/
theorem fresh_key_force_gate_always_open_witness :
    (detectDeadlock defaultConfig
      (runGuardian defaultConfig
        [ { operation := "app-start", target := "134", now := 1000
            outcome := .error { message := "x" }, connectionCheckOk := true, successNow := 0 }
        , { operation := "app-start", target := "134", now := 2000
            outcome := .error { message := "y" }, connectionCheckOk := true, successNow := 0 }
        , { operation := "app-start", target := "134", now := 3000
            outcome := .error { message := "z" }, connectionCheckOk := true, successNow := 0 } ]
        initialState)
      "app-start" "134" 200000).1.needsForceRecovery = true :=
  (fresh_key_force_gate_always_open defaultConfig
    (runGuardian defaultConfig
      [ { operation := "app-start", target := "134", now := 1000
          outcome := .error { message := "x" }, connectionCheckOk := true, successNow := 0 }
      , { operation := "app-start", target := "134", now := 2000
          outcome := .error { message := "y" }, connectionCheckOk := true, successNow := 0 }
      , { operation := "app-start", target := "134", now := 3000
          outcome := .error { message := "z" }, connectionCheckOk := true, successNow := 0 } ]
      initialState)
    "app-start" "134" 200000 (by decide) rfl (by decide)).1

theorem execError_attempts_fresh {α : Type} (cfg : GuardianConfig) (st : GuardianState)
    (operation target : String) (now : Int) (e : JsError) (cco : Bool) (sn : Int)
    (h : st.attempts (mkKey operation target) = none) :
    (executeWithGuardian cfg st operation target now (.error e : Except JsError α) cco sn).state.attempts
      (mkKey operation target) = some { count := 1, firstAttempt := now } := by
  rw [execError_state, detectDeadlock_attempts_self, h]
  rfl

theorem execError_attempts_bump {α : Type} (cfg : GuardianConfig) (st : GuardianState)
    (operation target : String) (now : Int) (e : JsError) (cco : Bool) (sn : Int)
    (c : Nat) (f : Int)
    (h : st.attempts (mkKey operation target) = some { count := c, firstAttempt := f }) :
    (executeWithGuardian cfg st operation target now (.error e : Except JsError α) cco sn).state.attempts
      (mkKey operation target) = some { count := c + 1, firstAttempt := f } := by
  rw [execError_state, detectDeadlock_attempts_self, h]
  rfl

/-- C1 counterexample: three consecutive failures all within 60 seconds
(at 0 ms, 10000 ms and 20000 ms) leave an attempt record of count 3,
yet the next invocation's pre-action check (at 30000 ms, also within
60 s of the first failure) does NOT flag the key as deadlocked, because
the code additionally requires more than 60 s to have elapsed since the
first attempt. -/
theorem three_fast_failures_not_flagged_deadlocked :
    (runGuardian defaultConfig
      [ { operation := "app-start", target := "134", now := 0
          outcome := .error { message := "err one" }, connectionCheckOk := true, successNow := 0 }
      , { operation := "app-start", target := "134", now := 10000
          outcome := .error { message := "err two" }, connectionCheckOk := true, successNow := 0 }
      , { operation := "app-start", target := "134", now := 20000
          outcome := .error { message := "err three" }, connectionCheckOk := true, successNow := 0 } ]
      initialState).attempts "app-start-134" = some { count := 3, firstAttempt := 0 }
    ∧ (detectDeadlock defaultConfig
        (runGuardian defaultConfig
          [ { operation := "app-start", target := "134", now := 0
              outcome := .error { message := "err one" }, connectionCheckOk := true, successNow := 0 }
          , { operation := "app-start", target := "134", now := 10000
              outcome := .error { message := "err two" }, connectionCheckOk := true, successNow := 0 }
          , { operation := "app-start", target := "134", now := 20000
              outcome := .error { message := "err three" }, connectionCheckOk := true, successNow := 0 } ]
          initialState)
        "app-start" "134" 30000).1.isDeadlock = false := by
  decide

/-- C1 amended: after three consecutive failed guarded invocations for
a key whose attempt record starts out absent, the next invocation is
flagged deadlocked before its action executes if and only if more than
60 seconds (60000 ms) have elapsed since the FIRST of those failed
attempts — regardless of the specific error messages involved.  (The
claim's premise that the three failures fall within 60 seconds is not
what triggers the flag; the flag needs the elapsed time to exceed
60 s.) -/
theorem three_failures_flag_deadlock_iff_over_60s
    (cfg : GuardianConfig) (st : GuardianState) (operation target : String)
    (e1 e2 e3 : JsError) (t1 t2 t3 t4 : Int) (cco1 cco2 cco3 : Bool)
    (s1 s2 s3 : Int)
    (h : st.attempts (mkKey operation target) = none) :
    (detectDeadlock cfg
      (runGuardian cfg
        [ { operation := operation, target := target, now := t1
            outcome := .error e1, connectionCheckOk := cco1, successNow := s1 }
        , { operation := operation, target := target, now := t2
            outcome := .error e2, connectionCheckOk := cco2, successNow := s2 }
        , { operation := operation, target := target, now := t3
            outcome := .error e3, connectionCheckOk := cco3, successNow := s3 } ]
        st)
      operation target t4).1.isDeadlock = decide (t4 - t1 > 60000) := by
  simp only [runGuardian, List.foldl]
  have h1 := @execError_attempts_fresh Unit cfg st operation target t1 e1 cco1 s1 h
  have h2 := @execError_attempts_bump Unit cfg _ operation target t2 e2 cco2 s2 1 t1 h1
  have h3 := @execError_attempts_bump Unit cfg _ operation target t3 e3 cco3 s3 2 t1 h2
  rw [detectDeadlock_isDeadlock cfg _ operation target t4 3 t1 h3]
  simp

/-- Witness for C1 amended: three failures at 0/10000/20000 ms and a
fourth invocation at 70000 ms — more than 60 s after the first attempt
— which is flagged (the right-hand side evaluates to `true`). -/
theorem three_failures_flag_deadlock_iff_over_60s_witness :
    (detectDeadlock defaultConfig
      (runGuardian defaultConfig
        [ { operation := "login-test", target := "134", now := 0
            outcome := .error { message := "a" }, connectionCheckOk := true, successNow := 0 }
        , { operation := "login-test", target := "134", now := 10000
            outcome := .error { message := "b" }, connectionCheckOk := true, successNow := 0 }
        , { operation := "login-test", target := "134", now := 20000
            outcome := .error { message := "c" }, connectionCheckOk := true, successNow := 0 } ]
        initialState)
      "login-test" "134" 70000).1.isDeadlock = decide ((70000 : Int) - 0 > 60000) :=
  three_failures_flag_deadlock_iff_over_60s defaultConfig initialState
    "login-test" "134" { message := "a" } { message := "b" } { message := "c" }
    0 10000 20000 70000 true true true 0 0 0 rfl

theorem runGuardian_cons (cfg : GuardianConfig) (i : Invocation)
    (invs : List Invocation) (st : GuardianState) :
    runGuardian cfg (i :: invs) st =
      runGuardian cfg invs
        (executeWithGuardian cfg st i.operation i.target i.now i.outcome
          i.connectionCheckOk i.successNow).state := rfl

/-- A key all of whose guarded invocations so far have succeeded has no
attempt record. -/
theorem runGuardian_attempts_none_of_all_ok (cfg : GuardianConfig)
    (invs : List Invocation) (st : GuardianState) (key : String)
    (h0 : st.attempts key = none)
    (hall : ∀ i ∈ invs, mkKey i.operation i.target = key → ∃ v, i.outcome = .ok v) :
    (runGuardian cfg invs st).attempts key = none := by
  induction invs generalizing st with
  | nil => simpa [runGuardian] using h0
  | cons i rest ih =>
    rw [runGuardian_cons]
    apply ih
    · by_cases hk : key = mkKey i.operation i.target
      · obtain ⟨v, hv⟩ := hall i (List.mem_cons_self i rest) hk.symm
        rw [hv, hk]
        exact execOk_attempts_self cfg st i.operation i.target i.now v
          i.connectionCheckOk i.successNow
      · rw [exec_attempts_other cfg st i.operation i.target i.now i.outcome
          i.connectionCheckOk i.successNow key hk]
        exact h0
    · exact fun j hj => hall j (List.mem_cons_of_mem i hj)

theorem execOk_recoveries {α : Type} (cfg : GuardianConfig) (st : GuardianState)
    (operation target : String) (now : Int) (v : α) (cco : Bool) (sn : Int) :
    (executeWithGuardian cfg st operation target now (.ok v) cco sn).recoveries =
      (if ((detectDeadlock cfg st operation target now).1.isDeadlock
            && (detectDeadlock cfg st operation target now).1.needsForceRecovery) then
        [RecoveryAction.force target]
      else []) := by
  simp [executeWithGuardian]

theorem execError_recoveries {α : Type} (cfg : GuardianConfig) (st : GuardianState)
    (operation target : String) (now : Int) (e : JsError) (cco : Bool) (sn : Int) :
    (executeWithGuardian cfg st operation target now (.error e : Except JsError α) cco sn).recoveries =
      (if ((detectDeadlock cfg st operation target now).1.isDeadlock
            && (detectDeadlock cfg st operation target now).1.needsForceRecovery) then
        [RecoveryAction.force target]
      else [])
      ++ (if strContains e.message "EADDRINUSE" then
            [RecoveryAction.portConflict target]
          else if strContains e.message "Connection refused" then
            if cco then [RecoveryAction.connectionIssue target]
            else [RecoveryAction.connectionIssue target, RecoveryAction.force target]
          else if strContains e.message "No such file" then
            [RecoveryAction.missingFiles target]
          else []) := by
  simp [executeWithGuardian]

/-- C2 counterexample: on a fresh key (which has never had a failed
invocation before this call), a guarded call failing with
`Connection refused` whose connectivity probes also fail triggers force
recovery (the container stop/start cycle) via the connection-recovery
escalation, even though neither the deadlock condition nor the
force-recovery time gate holds. -/
theorem force_recovery_without_deadlock :
    RecoveryAction.force "134" ∈
      (executeWithGuardian defaultConfig initialState "app-start" "134" 1000
        (.error { message := "Connection refused" } : Except JsError Unit)
        false 1000).recoveries
    ∧ (detectDeadlock defaultConfig initialState "app-start" "134" 1000).1.isDeadlock = false
    ∧ (detectDeadlock defaultConfig initialState "app-start" "134"
        1000).1.needsForceRecovery = false := by
  decide

/-- C2 amended: the PRE-ACTION force recovery of a guarded call runs if
and only if the deadlock condition holds for the key AND time since the
key's last recorded success exceeds `config.forceRecoveryAfter`
(default 120 s); however, force recovery is ALSO invoked — regardless
of the deadlock state — when the guarded action fails with a message
containing `Connection refused` (and not `EADDRINUSE`) and the
connectivity probes fail too.  The pre-action deadlock flag is never
raised for a key all of whose guarded invocations have succeeded. -/
theorem force_recovery_iff_characterization (cfg : GuardianConfig) :
    (∀ (st : GuardianState) (operation target : String) (now : Int)
        (outcome : Except JsError Unit) (cco : Bool) (sn : Int),
      RecoveryAction.force target ∈
          (executeWithGuardian cfg st operation target now outcome cco sn).recoveries
        ↔ ((detectDeadlock cfg st operation target now).1.isDeadlock = true
            ∧ (detectDeadlock cfg st operation target now).1.needsForceRecovery = true)
          ∨ (∃ e, outcome = .error e
              ∧ strContains e.message "EADDRINUSE" = false
              ∧ strContains e.message "Connection refused" = true
              ∧ cco = false))
    ∧ (∀ (invs : List Invocation) (operation target : String) (now : Int),
        (∀ i ∈ invs, mkKey i.operation i.target = mkKey operation target →
          ∃ v, i.outcome = .ok v) →
        (detectDeadlock cfg (runGuardian cfg invs initialState)
          operation target now).1.isDeadlock = false) := by
  constructor
  · intro st operation target now outcome cco sn
    cases outcome with
    | ok v =>
        rw [execOk_recoveries]
        by_cases hb : ((detectDeadlock cfg st operation target now).1.isDeadlock
            && (detectDeadlock cfg st operation target now).1.needsForceRecovery) = true <;>
          simp [hb] <;> simp_all
    | error e =>
        rw [execError_recoveries]
        by_cases hb : ((detectDeadlock cfg st operation target now).1.isDeadlock
            && (detectDeadlock cfg st operation target now).1.needsForceRecovery) = true <;>
        by_cases h1 : strContains e.message "EADDRINUSE" = true <;>
        by_cases h2 : strContains e.message "Connection refused" = true <;>
        by_cases h3 : strContains e.message "No such file" = true <;>
        cases cco <;>
          simp [hb, h1, h2, h3] <;> simp_all
  · intro invs operation target now hall
    exact detectDeadlock_isDeadlock_fresh cfg _ operation target now
      (runGuardian_attempts_none_of_all_ok cfg invs initialState
        (mkKey operation target) rfl hall)

/-- Witness for C2 amended: a key whose single past invocation
succeeded is not flagged deadlocked (hypotheses discharged at a
concrete one-success trace). -/
theorem force_recovery_iff_characterization_witness :
    (detectDeadlock defaultConfig
      (runGuardian defaultConfig
        [ { operation := "app-start", target := "134", now := 5
            outcome := .ok (), connectionCheckOk := true, successNow := 6 } ]
        initialState)
      "app-start" "134" 1000).1.isDeadlock = false :=
  (force_recovery_iff_characterization defaultConfig).2
    [ { operation := "app-start", target := "134", now := 5
        outcome := .ok (), connectionCheckOk := true, successNow := 6 } ]
    "app-start" "134" 1000
    (by
      intro i hi hk
      simp only [List.mem_singleton] at hi
      subst hi
      exact ⟨(), rfl⟩)

/-- C8 counterexample: a guarded operation failing with an error whose
message contains the phrase `address already in use` — but not the
Node.js error code `EADDRINUSE`, which is what the dispatch actually
matches — triggers NO recovery at all: the port-conflict recovery is
not invoked even once before the error is rethrown. -/
theorem address_in_use_phrase_not_dispatched :
    (executeWithGuardian defaultConfig initialState "app-start" "134" 1000
      (.error { message := "bind: address already in use" } : Except JsError Unit)
      true 1000).recoveries = []
    ∧ (executeWithGuardian defaultConfig initialState "app-start" "134" 1000
        (.error { message := "bind: address already in use" } : Except JsError Unit)
        true 1000).result = .error { message := "bind: address already in use" }
    ∧ strContains "bind: address already in use" "address already in use" = true :=
  ⟨by decide, by rfl, by decide⟩

/-- C8 amended: if a guarded operation throws an error whose message
contains `EADDRINUSE` (the signature the dispatch actually matches),
the port-conflict recovery (kill-by-port) is invoked exactly once and
the original error is then rethrown unchanged to the caller. -/
theorem eaddrinuse_triggers_port_recovery_once (cfg : GuardianConfig)
    (st : GuardianState) (operation target : String) (now : Int) (e : JsError)
    (cco : Bool) (sn : Int)
    (h : strContains e.message "EADDRINUSE" = true) :
    (executeWithGuardian cfg st operation target now
        (.error e : Except JsError Unit) cco sn).recoveries.count
      (RecoveryAction.portConflict target) = 1
    ∧ (executeWithGuardian cfg st operation target now
        (.error e : Except JsError Unit) cco sn).result = .error e := by
  constructor
  · rw [execError_recoveries]
    by_cases hb : ((detectDeadlock cfg st operation target now).1.isDeadlock
        && (detectDeadlock cfg st operation target now).1.needsForceRecovery) = true <;>
      simp [hb, h, List.count_append, List.count_cons, List.count_nil]
  · simp [executeWithGuardian]

/-- Witness for C8 amended: the real Node.js message for a port
conflict contains `EADDRINUSE`. -/
theorem eaddrinuse_triggers_port_recovery_once_witness :
    (executeWithGuardian defaultConfig initialState "app-start" "134" 1000
        (.error { message := "listen EADDRINUSE: address already in use 0.0.0.0:3001" } :
          Except JsError Unit) true 1000).recoveries.count
      (RecoveryAction.portConflict "134") = 1
    ∧ (executeWithGuardian defaultConfig initialState "app-start" "134" 1000
        (.error { message := "listen EADDRINUSE: address already in use 0.0.0.0:3001" } :
          Except JsError Unit) true 1000).result =
        .error { message := "listen EADDRINUSE: address already in use 0.0.0.0:3001" } :=
  eaddrinuse_triggers_port_recovery_once defaultConfig initialState "app-start"
    "134" 1000 { message := "listen EADDRINUSE: address already in use 0.0.0.0:3001" }
    true 1000 (by decide)

/-- C4: whenever repository synchronization takes the fetch +
hard-reset path and returns successfully, the re-read remote HEAD
equals the target (local) commit, and a post-reset mismatch raises a
fatal sync error instead of returning success. -/
theorem sync_fixpoint_verified (localCommit : String) (repo : RemoteRepo)
    (forceSync : Bool) (localHash : String → Option String)
    (hpath : (repo.head != localCommit || forceSync) = true) :
    ((repositorySynchronization localCommit repo forceSync localHash).result = .ok () →
      (repositorySynchronization localCommit repo forceSync localHash).repo.head =
        localCommit)
    ∧ (repo.originHead ≠ localCommit →
      (repositorySynchronization localCommit repo forceSync localHash).result =
        .error { message := "Repository synchronization failed: " ++ repo.originHead
            ++ " !== " ++ localCommit }) := by
  by_cases hm : repo.originHead = localCommit
  · refine ⟨fun _ => ?_, fun hne => absurd hm hne⟩
    simp [repositorySynchronization, hpath, hm]
  · refine ⟨fun hok => ?_, fun _ => ?_⟩
    · exfalso
      simp [repositorySynchronization, hpath, hm] at hok
    · simp [repositorySynchronization, hpath, hm]

/-- Witness for C4: an out-of-date remote whose origin ref holds the
target commit converges to it. -/
theorem sync_fixpoint_verified_witness :
    ((repositorySynchronization "abc" { head := "old", originHead := "abc" } false
        (fun _ => none)).result = .ok () →
      (repositorySynchronization "abc" { head := "old", originHead := "abc" } false
        (fun _ => none)).repo.head = "abc")
    ∧ (({ head := "old", originHead := "abc" } : RemoteRepo).originHead ≠ "abc" →
      (repositorySynchronization "abc" { head := "old", originHead := "abc" } false
        (fun _ => none)).result =
        .error { message := "Repository synchronization failed: "
            ++ ({ head := "old", originHead := "abc" } : RemoteRepo).originHead
            ++ " !== " ++ "abc" }) :=
  sync_fixpoint_verified "abc" { head := "old", originHead := "abc" } false
    (fun _ => none) (by decide)

/-- C7 counterexample: with the remote HEAD already equal to the target
commit and `forceSync=false`, the sync call mutates nothing — but it
does NOT stop at the initial HEAD read: critical-file validation still
issues one remote `md5sum` command per critical file. -/
theorem short_circuit_still_issues_read_commands :
    (repositorySynchronization "abc123" { head := "abc123", originHead := "abc123" }
      false (fun _ => some "aabbcc")).commands ≠ [RemoteCmd.readHead]
    ∧ RemoteCmd.readFileHash "package.json" ∈
        (repositorySynchronization "abc123" { head := "abc123", originHead := "abc123" }
          false (fun _ => some "aabbcc")).commands
    ∧ (repositorySynchronization "abc123" { head := "abc123", originHead := "abc123" }
        false (fun _ => some "aabbcc")).repo =
        { head := "abc123", originHead := "abc123" } :=
  ⟨by decide, by decide, by decide⟩

/-- C7 amended: if the remote HEAD already equals the target commit and
`forceSync` is false, synchronization short-circuits: it performs zero
remote mutation (the remote repository is unchanged and every issued
command is a read), but beyond the initial HEAD read it still issues
the critical-file hash reads (one remote `md5sum` per critical file
whose local hash is computable). -/
theorem sync_short_circuit_reads_only (localCommit : String) (repo : RemoteRepo)
    (localHash : String → Option String) (h : repo.head = localCommit) :
    (repositorySynchronization localCommit repo false localHash).result = .ok ()
    ∧ (repositorySynchronization localCommit repo false localHash).repo = repo
    ∧ (repositorySynchronization localCommit repo false localHash).commands =
        RemoteCmd.readHead :: validateCriticalFilesCmds localHash
    ∧ ∀ c ∈ (repositorySynchronization localCommit repo false localHash).commands,
        c.isMutation = false := by
  have hcmds : (repositorySynchronization localCommit repo false localHash).commands =
      RemoteCmd.readHead :: validateCriticalFilesCmds localHash := by
    simp [repositorySynchronization, h]
  refine ⟨?_, ?_, hcmds, ?_⟩
  · simp [repositorySynchronization, h]
  · simp [repositorySynchronization, h]
  · intro c hc
    rw [hcmds] at hc
    rcases List.mem_cons.mp hc with hhead | htail
    · subst hhead
      rfl
    · obtain ⟨f, _, heq⟩ := List.mem_filterMap.mp htail
      obtain ⟨a, _, hcf⟩ := Option.map_eq_some'.mp heq
      subst hcf
      rfl

/-- Witness for C7 amended at a concrete already-synchronized remote. -/
theorem sync_short_circuit_reads_only_witness :
    (repositorySynchronization "abc123" { head := "abc123", originHead := "abc123" }
      false (fun _ => some "aabbcc")).result = .ok ()
    ∧ (repositorySynchronization "abc123" { head := "abc123", originHead := "abc123" }
        false (fun _ => some "aabbcc")).repo =
        { head := "abc123", originHead := "abc123" }
    ∧ (repositorySynchronization "abc123" { head := "abc123", originHead := "abc123" }
        false (fun _ => some "aabbcc")).commands =
        RemoteCmd.readHead :: validateCriticalFilesCmds (fun _ => some "aabbcc")
    ∧ ∀ c ∈ (repositorySynchronization "abc123" { head := "abc123", originHead := "abc123" }
        false (fun _ => some "aabbcc")).commands, c.isMutation = false :=
  sync_short_circuit_reads_only "abc123" { head := "abc123", originHead := "abc123" }
    (fun _ => some "aabbcc") rfl

theorem postDeploymentValidation_eq (probe : String → Except JsError String) :
    postDeploymentValidation probe =
      if healthyCount probe ≥ validationThreshold then
        .ok { success := true, healthyEndpoints := healthyCount probe
              totalEndpoints := endpoints.length
              results := endpoints.map (endpointResult probe) }
      else
        .error { message := "Post-deployment validation failed: "
            ++ toString (healthyCount probe) ++ "/"
            ++ toString endpoints.length ++ " endpoints healthy" } := rfl

/-- C6 counterexample: the endpoint list has three entries, not four;
with exactly 2 of the 3 endpoints healthy the validation THROWS (the
per-endpoint breakdown is not returned to the caller — only the counts
travel in the error message). -/
theorem validation_failure_throws_without_breakdown :
    healthyCount (fun u => if u == "/dashboard" then .ok "500" else .ok "200") = 2
    ∧ postDeploymentValidation (fun u => if u == "/dashboard" then .ok "500" else .ok "200") =
        .error { message := "Post-deployment validation failed: 2/3 endpoints healthy" }
    ∧ endpoints.length = 3 :=
  ⟨by decide, by rfl, by rfl⟩

/-- C6 amended: health validation probes the three hardcoded endpoints
and passes if and only if `healthyCount / totalCount ≥ 0.75` (stated
integrally as `4 * healthyCount ≥ 3 * totalCount`; with 3 endpoints
this means all three must be healthy).  On a passing verdict the full
per-endpoint breakdown is returned; on a failing verdict the function
throws an error carrying only the counts, so the breakdown is NOT
returned to the caller. -/
theorem validation_pass_iff_threshold (probe : String → Except JsError String) :
    ((∃ v, postDeploymentValidation probe = .ok v) ↔
        4 * healthyCount probe ≥ 3 * endpoints.length)
    ∧ (∀ v, postDeploymentValidation probe = .ok v →
        v.results = endpoints.map (endpointResult probe)
        ∧ v.healthyEndpoints = healthyCount probe
        ∧ v.totalEndpoints = endpoints.length
        ∧ v.success = true)
    ∧ (healthyCount probe < validationThreshold →
        postDeploymentValidation probe =
          .error { message := "Post-deployment validation failed: "
              ++ toString (healthyCount probe) ++ "/"
              ++ toString endpoints.length ++ " endpoints healthy" }) := by
  have hthr : validationThreshold = 3 := rfl
  have hlen : endpoints.length = 3 := rfl
  by_cases hp : healthyCount probe ≥ validationThreshold
  · refine ⟨⟨fun _ => ?_, fun _ =>
      ⟨{ success := true, healthyEndpoints := healthyCount probe
         totalEndpoints := endpoints.length
         results := endpoints.map (endpointResult probe) }, ?_⟩⟩, ?_, ?_⟩
    · rw [hlen]
      rw [hthr] at hp
      omega
    · rw [postDeploymentValidation_eq, if_pos hp]
    · intro v hv
      rw [postDeploymentValidation_eq, if_pos hp] at hv
      simp only [Except.ok.injEq] at hv
      subst hv
      exact ⟨rfl, rfl, rfl, rfl⟩
    · intro hlt
      exact absurd hlt (not_lt.mpr hp)
  · refine ⟨⟨fun hex => ?_, fun hge => ?_⟩, ?_, ?_⟩
    · obtain ⟨v, hv⟩ := hex
      rw [postDeploymentValidation_eq, if_neg hp] at hv
      exact absurd hv (by simp)
    · exfalso
      rw [hlen] at hge
      rw [hthr] at hp
      omega
    · intro v hv
      rw [postDeploymentValidation_eq, if_neg hp] at hv
      exact absurd hv (by simp)
    · intro _
      rw [postDeploymentValidation_eq, if_neg hp]

/-- Witness for C6 amended at a probe answering 200 everywhere. -/
theorem validation_pass_iff_threshold_witness :
    ((∃ v, postDeploymentValidation (fun _ => .ok "200") = .ok v) ↔
        4 * healthyCount (fun _ => .ok "200") ≥ 3 * endpoints.length)
    ∧ (∀ v, postDeploymentValidation (fun _ => .ok "200") = .ok v →
        v.results = endpoints.map (endpointResult (fun _ => .ok "200"))
        ∧ v.healthyEndpoints = healthyCount (fun _ => .ok "200")
        ∧ v.totalEndpoints = endpoints.length
        ∧ v.success = true)
    ∧ (healthyCount (fun _ => .ok "200") < validationThreshold →
        postDeploymentValidation (fun _ => .ok "200") =
          .error { message := "Post-deployment validation failed: "
              ++ toString (healthyCount (fun _ => .ok "200")) ++ "/"
              ++ toString endpoints.length ++ " endpoints healthy" }) :=
  validation_pass_iff_threshold (fun _ => .ok "200")

theorem runPhases_phase_counts (po : PhaseOutcomes) :
    (runPhases po).2.count Phase.rollbackReadParent = 0
    ∧ (runPhases po).2.count Phase.validate ≤ 1 := by
  unfold runPhases
  cases po.preCheck <;> cases po.sync <;> cases po.deploy <;> cases po.validate <;>
    simp [List.count_cons, List.count_nil]

theorem attemptRollback_phase_counts (po : PhaseOutcomes) :
    (attemptRollback po).2.count Phase.rollbackReadParent = 1
    ∧ (attemptRollback po).2.count Phase.validate = 0 := by
  unfold attemptRollback
  cases po.rollbackReadParent <;> cases po.rollbackReset <;>
    cases po.rollbackDeploy <;> simp [List.count_cons, List.count_nil]

theorem attemptRollback_result (po : PhaseOutcomes) :
    (attemptRollback po).1 = .ok ()
    ∨ ∃ m, (attemptRollback po).1 =
        .error { message := "Deployment failed and rollback failed: " ++ m } := by
  unfold attemptRollback
  cases po.rollbackReadParent with
  | error e => exact .inr ⟨e.message, rfl⟩
  | ok p =>
    cases po.rollbackReset with
    | error e => exact .inr ⟨e.message, rfl⟩
    | ok u =>
      cases po.rollbackDeploy with
      | error e => exact .inr ⟨e.message, rfl⟩
      | ok u => exact .inl rfl

theorem deployToEnvironment_error (po : PhaseOutcomes) (e : JsError)
    (h : (runPhases po).1 = .error e) :
    deployToEnvironment po true =
      { result := match (attemptRollback po).1 with
          | .ok _ => .error e
          | .error re => .error re
        phases := (runPhases po).2 ++ (attemptRollback po).2 } := by
  rcases hrp : runPhases po with ⟨r, ps⟩
  rw [hrp] at h
  simp only [] at h
  subst h
  rcases har : attemptRollback po with ⟨rr, rps⟩
  unfold deployToEnvironment
  rw [hrp, har]
  cases rr with
  | ok u => rfl
  | error re => rfl

/-- C5 counterexample: a run whose validation fails with auto-rollback
enabled re-runs the Deploy phase after the rollback reset but never
re-runs Validate (the phase trace contains Validate exactly once), and
the run terminates with the ORIGINAL error; when instead the rollback
itself fails, the terminal error carries only the rollback failure
detail — the original failure message does not occur in it. -/
theorem rollback_never_revalidates :
    (deployToEnvironment
      { preCheck := .ok (), sync := .ok (), deploy := .ok ()
        validate := .error { message := "orig" }
        rollbackReadParent := .ok "parent", rollbackReset := .ok ()
        rollbackDeploy := .ok () } true).phases =
      [Phase.preCheck, Phase.sync, Phase.deploy, Phase.validate,
       Phase.rollbackReadParent, Phase.rollbackReset, Phase.deploy]
    ∧ (deployToEnvironment
        { preCheck := .ok (), sync := .ok (), deploy := .ok ()
          validate := .error { message := "orig" }
          rollbackReadParent := .ok "parent", rollbackReset := .ok ()
          rollbackDeploy := .ok () } true).phases.count Phase.validate = 1
    ∧ (deployToEnvironment
        { preCheck := .ok (), sync := .ok (), deploy := .ok ()
          validate := .error { message := "orig" }
          rollbackReadParent := .ok "parent", rollbackReset := .ok ()
          rollbackDeploy := .ok () } true).result = .error { message := "orig" }
    ∧ (deployToEnvironment
        { preCheck := .ok (), sync := .ok (), deploy := .ok ()
          validate := .error { message := "orig" }
          rollbackReadParent := .ok "parent", rollbackReset := .ok ()
          rollbackDeploy := .error { message := "boom" } } true).result =
        .error { message := "Deployment failed and rollback failed: boom" }
    ∧ strContains "Deployment failed and rollback failed: boom" "orig" = false :=
  ⟨by decide, by decide, by rfl, by rfl, by decide⟩

/-- C5 amended: when a deployment run with auto-rollback enabled fails,
exactly one rollback is attempted (the remote working copy is reset
toward the parent commit and the Deploy phase re-run), validation is
NOT re-run after the rollback (Validate occurs at most once in the
trace), and the run terminates with the original error if the rollback
succeeded, or — if the rollback itself failed — with an error carrying
only the rollback failure detail
(`Deployment failed and rollback failed: ...`), which supersedes the
original error. -/
theorem rollback_single_depth_no_revalidation (po : PhaseOutcomes) (e : JsError)
    (h : (runPhases po).1 = .error e) :
    (deployToEnvironment po true).phases.count Phase.rollbackReadParent = 1
    ∧ (deployToEnvironment po true).phases.count Phase.validate ≤ 1
    ∧ ((attemptRollback po).1 = .ok () →
        (deployToEnvironment po true).result = .error e)
    ∧ (∀ re, (attemptRollback po).1 = .error re →
        (deployToEnvironment po true).result = .error re
        ∧ ∃ m, re.message = "Deployment failed and rollback failed: " ++ m) := by
  rw [deployToEnvironment_error po e h]
  refine ⟨?_, ?_, ?_, ?_⟩
  · simp only [List.count_append, (runPhases_phase_counts po).1,
      (attemptRollback_phase_counts po).1]
  · have h1 := (runPhases_phase_counts po).2
    have h2 := (attemptRollback_phase_counts po).2
    simp only [List.count_append, h2]
    omega
  · intro hok
    simp only [hok]
  · intro re hre
    refine ⟨by simp only [hre], ?_⟩
    rcases attemptRollback_result po with hok | ⟨m, hm⟩
    · rw [hok] at hre
      exact absurd hre (by simp)
    · rw [hm] at hre
      simp only [Except.error.injEq] at hre
      exact ⟨m, by rw [← hre]⟩

/-- Witness for C5 amended at a concrete failing validation with a
successful rollback. -/
theorem rollback_single_depth_no_revalidation_witness :
    (deployToEnvironment
      { preCheck := .ok (), sync := .ok (), deploy := .ok ()
        validate := .error { message := "validation down" }
        rollbackReadParent := .ok "parent", rollbackReset := .ok ()
        rollbackDeploy := .ok () } true).phases.count Phase.rollbackReadParent = 1
    ∧ (deployToEnvironment
        { preCheck := .ok (), sync := .ok (), deploy := .ok ()
          validate := .error { message := "validation down" }
          rollbackReadParent := .ok "parent", rollbackReset := .ok ()
          rollbackDeploy := .ok () } true).phases.count Phase.validate ≤ 1
    ∧ ((attemptRollback
        { preCheck := .ok (), sync := .ok (), deploy := .ok ()
          validate := .error { message := "validation down" }
          rollbackReadParent := .ok "parent", rollbackReset := .ok ()
          rollbackDeploy := .ok () }).1 = .ok () →
        (deployToEnvironment
          { preCheck := .ok (), sync := .ok (), deploy := .ok ()
            validate := .error { message := "validation down" }
            rollbackReadParent := .ok "parent", rollbackReset := .ok ()
            rollbackDeploy := .ok () } true).result =
          .error { message := "validation down" })
    ∧ (∀ re, (attemptRollback
        { preCheck := .ok (), sync := .ok (), deploy := .ok ()
          validate := .error { message := "validation down" }
          rollbackReadParent := .ok "parent", rollbackReset := .ok ()
          rollbackDeploy := .ok () }).1 = .error re →
        (deployToEnvironment
          { preCheck := .ok (), sync := .ok (), deploy := .ok ()
            validate := .error { message := "validation down" }
            rollbackReadParent := .ok "parent", rollbackReset := .ok ()
            rollbackDeploy := .ok () } true).result = .error re
        ∧ ∃ m, re.message = "Deployment failed and rollback failed: " ++ m) :=
  rollback_single_depth_no_revalidation
    { preCheck := .ok (), sync := .ok (), deploy := .ok ()
      validate := .error { message := "validation down" }
      rollbackReadParent := .ok "parent", rollbackReset := .ok ()
      rollbackDeploy := .ok () } { message := "validation down" } rfl
